import Mathlib

/-!
Shallow embedding of the authorization core of the authnzerver repository:
the user-administration actions (`src/authnzerver/actions/admin.py`) and the
API-key actions (`src/authnzerver/actions/apikey.py`).

The database is modelled as explicit lists of records (`users`, `sessions`,
`apikeys`); each action takes the database state and a payload and returns
the response dict together with the new database state.  `datetime.utcnow()`
is modelled as an integer timestamp parameter `now` (seconds), and the random
token generated by `secrets.token_urlsafe` is a string parameter.

The session module (`actions/session.py`) is not part of the given sources;
the collaborators `auth_session_exists` and `auth_delete_sessions_userid`
are modelled from the spec (SessionValidator: given a session token, return
the stored session's bound user id, role, IP, user agent and active flag;
cascading invalidation: drop every session of the target user).
-/

/-- A value stored in a user-table column or an update dict: the relevant
columns are strings (`full_name`, `email`, `user_role`) or booleans
(`is_active`, `email_verified`). -/
inductive DBValue where
  | str (s : String)
  | bool (b : Bool)
deriving DecidableEq, Repr

/-- A row of the `users` table (the columns touched by the admin actions). -/
structure UserRecord where
  user_id : Int
  full_name : String
  email : String
  is_active : Bool
  user_role : String
  email_verified : Bool
deriving DecidableEq, Repr

/-- A row of the `sessions` table, as surfaced by `auth_session_exists`. -/
structure SessionRecord where
  session_token : String
  user_id : Int
  user_role : String
  ip_address : String
  user_agent : String
  is_active : Bool
deriving DecidableEq, Repr

/-- A row of the `apikeys` table (apikey.py, insert at lines 202-210). -/
structure ApiKeyRecord where
  apikey : String
  issued : Int
  expires : Int
  not_valid_before : Int
  user_id : Int
  user_role : String
  session_token : String
deriving DecidableEq, Repr

/-- The persistent store: users, sessions and apikeys tables. -/
structure AuthDB where
  users : List UserRecord
  sessions : List SessionRecord
  apikeys : List ApiKeyRecord
deriving DecidableEq, Repr

/-- Modelled from the spec: `auth_session_exists` (actions/session.py is not
among the given sources).  SessionValidator: given a session token, return
the stored session record (bound user id, role, IP, user agent, active flag)
or a not-found result. -/
def auth_session_exists (db : AuthDB) (session_token : String) :
    Option SessionRecord :=
  db.sessions.find? (fun s => s.session_token = session_token)

/-- Modelled from the spec: `auth_delete_sessions_userid`
(actions/session.py is not among the given sources).  Cascading revocation:
drop every session belonging to the target user. -/
def auth_delete_sessions_userid (db : AuthDB) (uid : Int) : AuthDB :=
  { db with sessions := db.sessions.filter (fun s => s.user_id ≠ uid) }

/-- The session cross-check shared by `edit_user` (admin.py lines 292-296 and
336-340) and `toggle_user_lock` (lines 731-735): the session lookup
succeeded, the session is active, and its bound `user_id` and `user_role`
equal the ones claimed in the payload. -/
def sessionMatches (db : AuthDB) (session_token : String) (user_id : Int)
    (user_role : String) : Bool :=
  match auth_session_exists db session_token with
  | some s => s.is_active && decide (s.user_id = user_id)
      && decide (s.user_role = user_role)
  | none => false

/-- Apply a single update-dict entry to a user row (one column of the
SQLAlchemy `users.update().values(update_dict)` in admin.py lines 400-404).
Entries for unknown columns or with a value of the wrong type leave the row
unchanged. -/
def applyField (u : UserRecord) (kv : String × DBValue) : UserRecord :=
  match kv.2 with
  | .str v =>
      if kv.1 = "full_name" then { u with full_name := v }
      else if kv.1 = "email" then { u with email := v }
      else if kv.1 = "user_role" then { u with user_role := v }
      else u
  | .bool v =>
      if kv.1 = "is_active" then { u with is_active := v }
      else if kv.1 = "email_verified" then { u with email_verified := v }
      else u

/-- Apply a whole update dict to a user row. -/
def applyUpdateDict (u : UserRecord) (ud : List (String × DBValue)) :
    UserRecord :=
  ud.foldl applyField u

/-- `users.update().where(users.c.user_id == target).values(update_dict)`:
rewrite every row whose `user_id` matches the target. -/
def updateUsersWhere (users : List UserRecord) (target : Int)
    (ud : List (String × DBValue)) : List UserRecord :=
  users.map (fun u => if u.user_id = target then applyUpdateDict u ud else u)

/-- The columns returned by the post-update verification select in
admin.py (lines 407-415 and 565-573). -/
structure UserInfo where
  user_id : Int
  user_role : String
  full_name : String
  email : String
  is_active : Bool
deriving DecidableEq, Repr

/-- The verification select + `fetchone`: the first row with the target
`user_id`, or none (in which case `dict(rows)` raises and the action reports
failure). -/
def selectUserInfo (users : List UserRecord) (target : Int) :
    Option UserInfo :=
  (users.find? (fun u => u.user_id = target)).map
    (fun u => ⟨u.user_id, u.user_role, u.full_name, u.email, u.is_active⟩)

/-- The `{success, user_info, messages}` response dict of the admin
actions. -/
structure ActionResult where
  success : Bool
  user_info : Option UserInfo
  messages : List String
deriving DecidableEq, Repr

/-- The `edit_user` payload with all required keys present (the key-presence
guard in admin.py lines 222-235 returns a failure without touching the store
when a key is missing, and the claims under study only concern payloads that
reach the policy checks). -/
structure EditPayload where
  user_id : Int
  user_role : String
  session_token : String
  target_userid : Int
  update_dict : List (String × DBValue)
deriving Repr

/-- The self-editable column set (admin.py line 298). -/
def selfEditable : List String := ["full_name", "email"]

/-- The superuser-editable column set (admin.py lines 342-344). -/
def superuserEditable : List String :=
  ["full_name", "email", "is_active", "user_role", "email_verified"]

/-- `len(set(update_dict.keys()) - editeable_elements) > 0`: some requested
key lies outside the editable set. -/
def hasExtraKeys (ud : List (String × DBValue)) (editable : List String) :
    Bool :=
  ud.any (fun kv => decide (kv.1 ∉ editable))

/-- `update_dict['user_role']`: the value bound to a key (Python dicts have
unique keys; the first binding is authoritative). -/
def lookupKey (ud : List (String × DBValue)) (k : String) : Option DBValue :=
  (ud.find? (fun kv => kv.1 = k)).map Prod.snd

/-- The allowed values of a role change (admin.py lines 358-360). -/
def validRoles : List String := ["superuser", "staff", "authenticated", "locked"]

/-- `'user_role' in update_dict and update_dict['user_role'] not in
('superuser','staff','authenticated','locked')` (admin.py lines 358-360);
a non-string value is likewise not in the tuple, hence invalid. -/
def roleChangeInvalid (ud : List (String × DBValue)) : Bool :=
  match lookupKey ud "user_role" with
  | some (.str v) => decide (v ∉ validRoles)
  | some (.bool _) => true
  | none => false

/-- The update + verification-select tail of `edit_user`
(admin.py lines 397-439). -/
def doEditUpdate (db : AuthDB) (p : EditPayload) : ActionResult × AuthDB :=
  match selectUserInfo
      (updateUsersWhere db.users p.target_userid p.update_dict)
      p.target_userid with
  | some info =>
      (⟨true, some info, ["User update successful."]⟩,
       { db with
          users := updateUsersWhere db.users p.target_userid p.update_dict })
  | none =>
      (⟨false, none, ["User update failed."]⟩,
       { db with
          users := updateUsersWhere db.users p.target_userid p.update_dict })

/-- `edit_user` (admin.py lines 179-453): reserved-target guard, self-edit
path for `authenticated`/`staff`, superuser path, default deny, then the
update. -/
def edit_user (db : AuthDB) (p : EditPayload) : ActionResult × AuthDB :=
  if p.target_userid = 2 ∨ p.target_userid = 3 then
    (⟨false, none,
      ["Editing anonymous/locked user accounts not allowed."]⟩, db)
  else if p.target_userid = p.user_id ∧
      (p.user_role = "authenticated" ∨ p.user_role = "staff") then
    if sessionMatches db p.session_token p.user_id p.user_role then
      if hasExtraKeys p.update_dict selfEditable then
        (⟨false, none, ["extra elements in update_dict not allowed"]⟩, db)
      else
        doEditUpdate db p
    else
      (⟨false, none,
        ["User session info not available for this user edit attempt."]⟩, db)
  else if p.user_role = "superuser" then
    if sessionMatches db p.session_token p.user_id p.user_role then
      if hasExtraKeys p.update_dict superuserEditable then
        (⟨false, none, ["extra elements in update_dict not allowed"]⟩, db)
      else if roleChangeInvalid p.update_dict then
        (⟨false, none, ["unknown role change request in update_dict"]⟩, db)
      else
        doEditUpdate db p
    else
      (⟨false, none,
        ["Superuser session info not available for this user edit attempt."]⟩,
       db)
  else
    (⟨false, none,
      ["user_id or session info not available for this user edit attempt."]⟩,
     db)

/-- The `internal_toggle_user_lock` payload (target and action keys). -/
structure TogglePayload where
  target_userid : Int
  action : String
deriving Repr

/-- The update dict written by the `lock` action (admin.py lines 550-552). -/
def lockUpdateDict : List (String × DBValue) :=
  [("is_active", .bool false), ("user_role", .str "locked")]

/-- The update dict written by the `unlock` action
(admin.py lines 553-555). -/
def unlockUpdateDict : List (String × DBValue) :=
  [("is_active", .bool true), ("user_role", .str "authenticated")]

/-- The update dict chosen from the validated action
(admin.py lines 550-555). -/
def toggleUpdateDict (action : String) : List (String × DBValue) :=
  if action = "lock" then lockUpdateDict else unlockUpdateDict

/-- The store after the lock/unlock row update, with the session cascade
(admin.py lines 578-588) applied when the action is `lock`. -/
def toggleNewDB (db : AuthDB) (p : TogglePayload) : AuthDB :=
  if p.action = "lock" then
    auth_delete_sessions_userid
      { db with
         users := updateUsersWhere db.users p.target_userid
           (toggleUpdateDict p.action) }
      p.target_userid
  else
    { db with
       users := updateUsersWhere db.users p.target_userid
         (toggleUpdateDict p.action) }

/-- `internal_toggle_user_lock` (admin.py lines 456-623): action guard,
reserved-target guard, the row update, session cascade on `lock`, and the
verification select. -/
def internal_toggle_user_lock (db : AuthDB) (p : TogglePayload) :
    ActionResult × AuthDB :=
  if ¬ (p.action = "unlock" ∨ p.action = "lock") then
    (⟨false, none, ["Unknown action requested for toggle_user_lock."]⟩, db)
  else if p.target_userid = 2 ∨ p.target_userid = 3 then
    (⟨false, none,
      ["Editing anonymous/locked user accounts not allowed."]⟩, db)
  else
    match selectUserInfo
        (updateUsersWhere db.users p.target_userid
          (toggleUpdateDict p.action))
        p.target_userid with
    | some info =>
        (⟨true, some info, ["User lock toggle successful."]⟩,
         toggleNewDB db p)
    | none =>
        (⟨false, none, ["User lock toggle failed."]⟩, toggleNewDB db p)

/-- The `toggle_user_lock` payload with all required keys present. -/
structure ToggleAuthPayload where
  user_id : Int
  user_role : String
  session_token : String
  target_userid : Int
  action : String
deriving Repr

/-- `toggle_user_lock` (admin.py lines 626-794): action guard,
reserved-target guard, superuser-only session-verified authorization, then
delegation to `internal_toggle_user_lock`. -/
def toggle_user_lock (db : AuthDB) (p : ToggleAuthPayload) :
    ActionResult × AuthDB :=
  if ¬ (p.action = "unlock" ∨ p.action = "lock") then
    (⟨false, none, ["Unknown action requested for toggle_user_lock."]⟩, db)
  else if p.target_userid = 2 ∨ p.target_userid = 3 then
    (⟨false, none,
      ["Editing anonymous/locked user accounts not allowed."]⟩, db)
  else if p.user_role = "superuser" then
    if sessionMatches db p.session_token p.user_id p.user_role then
      internal_toggle_user_lock db ⟨p.target_userid, p.action⟩
    else
      (⟨false, none,
        ["Superuser session info not available for this user edit attempt."]⟩,
       db)
  else
    (⟨false, none,
      ["user_id or session info not available "
        ++ "for this user lock toggle attempt."]⟩, db)

/-- The `issue_new_apikey` payload with all required keys present (the
key-presence guard in apikey.py lines 91-108 returns a failure without
touching the store when a key is missing). -/
structure IssuePayload where
  user_id : Int
  user_role : String
  expires_days : Int
  not_valid_before : Int
  audience : String
  subject : String
  ip_address : String
  user_agent : String
  session_token : String
  apiversion : Int
deriving Repr

/-- The plaintext API-key claim set built in apikey.py lines 181-193 and
handed back for sealing; `iat`/`nbf`/`exp` are the timestamps whose
isoformat strings the source embeds. -/
structure ApiKeyClaims where
  ver : Int
  uid : Int
  rol : String
  clt : String
  aud : String
  sub : String
  ipa : String
  tkn : String
  iat : Int
  nbf : Int
  exp : Int
deriving DecidableEq, Repr

/-- The `{success, apikey, expires, messages}` response of
`issue_new_apikey`. -/
structure IssueResult where
  success : Bool
  apikey : Option ApiKeyClaims
  expires : Option Int
  messages : List String
deriving DecidableEq, Repr

/-- Seconds per day, for `timedelta(days=expires_days)`. -/
def secondsPerDay : Int := 86400

/-- `issue_new_apikey` (apikey.py lines 62-231): session lookup, fingerprint
cross-check of `user_id`/`ip_address`/`user_agent`/`user_role`, claim-set
construction, insert into the apikeys table.  `now` stands for
`datetime.utcnow()` and `random_token` for `secrets.token_urlsafe(32)`. -/
def issue_new_apikey (db : AuthDB) (now : Int) (random_token : String)
    (p : IssuePayload) : IssueResult × AuthDB :=
  match auth_session_exists db p.session_token with
  | none =>
      (⟨false, none, none,
        ["Invalid session token for password reset request."]⟩, db)
  | some session =>
      if session.user_id = p.user_id ∧ session.ip_address = p.ip_address ∧
          session.user_agent = p.user_agent ∧
          session.user_role = p.user_role then
        (⟨true,
          some ⟨p.apiversion, p.user_id, p.user_role, p.user_agent,
            p.audience, p.subject, p.ip_address, random_token, now,
            now + p.not_valid_before, now + p.expires_days * secondsPerDay⟩,
          some (now + p.expires_days * secondsPerDay),
          ["API key generated successfully for user_id = "
            ++ toString p.user_id ++ ", expires: "
            ++ toString (now + p.expires_days * secondsPerDay) ++ "."]⟩,
         { db with apikeys := db.apikeys ++
            [⟨random_token, now, now + p.expires_days * secondsPerDay,
              now + p.not_valid_before, p.user_id, p.user_role,
              p.session_token⟩] })
      else
        (⟨false, none, none,
          ["DB session user_id, ip_address, user_agent, "
            ++ "user_role does not match provided session info."]⟩, db)

/-- The conjunctive where-clause of the verification select
(apikey.py lines 274-289). -/
def apikeyRecordMatches (now : Int) (c : ApiKeyClaims) (k : ApiKeyRecord) :
    Bool :=
  decide (k.apikey = c.tkn) && decide (k.user_id = c.uid)
    && decide (k.user_role = c.rol) && decide (k.expires > now)
    && decide (k.issued < now) && decide (k.not_valid_before < now)

/-- The `{success, messages}` response of `verify_apikey`. -/
structure VerifyResult where
  success : Bool
  messages : List String
deriving DecidableEq, Repr

/-- `verify_apikey` (apikey.py lines 234-311): select a stored apikey row
matching the claims' `tkn`/`uid`/`rol` inside the validity window around
`now`; a found row verifies, anything else yields the one generic failure
message. -/
def verify_apikey (db : AuthDB) (now : Int) (apikey_dict : ApiKeyClaims) :
    VerifyResult :=
  match db.apikeys.find? (apikeyRecordMatches now apikey_dict) with
  | some row =>
      ⟨true, ["API key verified successfully. Expires: "
        ++ toString row.expires ++ "."]⟩
  | none => ⟨false, ["API key could not be verified."]⟩

/-! ## Helper lemmas -/

theorem sessionMatches_iff (db : AuthDB) (tok : String) (uid : Int)
    (role : String) :
    sessionMatches db tok uid role = true ↔
      ∃ s, auth_session_exists db tok = some s ∧ s.is_active = true ∧
        s.user_id = uid ∧ s.user_role = role := by
  unfold sessionMatches
  cases h : auth_session_exists db tok with
  | none => simp [h]
  | some s => simp [h, and_assoc]

theorem applyField_user_id (u : UserRecord) (kv : String × DBValue) :
    (applyField u kv).user_id = u.user_id := by
  rcases kv with ⟨k, v⟩
  cases v <;> simp only [applyField] <;> split_ifs <;> rfl

theorem applyUpdateDict_user_id (ud : List (String × DBValue))
    (u : UserRecord) : (applyUpdateDict u ud).user_id = u.user_id := by
  induction ud generalizing u with
  | nil => rfl
  | cons kv rest ih =>
      show (applyUpdateDict (applyField u kv) rest).user_id = u.user_id
      exact (ih (applyField u kv)).trans (applyField_user_id u kv)

theorem updateRow_user_id (t : Int) (ud : List (String × DBValue))
    (u : UserRecord) :
    (if u.user_id = t then applyUpdateDict u ud else u).user_id = u.user_id := by
  split
  · exact applyUpdateDict_user_id ud u
  · rfl

theorem selectUserInfo_isSome (users : List UserRecord) (t : Int) :
    (selectUserInfo users t).isSome = true ↔ ∃ u ∈ users, u.user_id = t := by
  unfold selectUserInfo
  simp

theorem selectUserInfo_updateUsersWhere_isSome (users : List UserRecord)
    (t : Int) (ud : List (String × DBValue))
    (h : ∃ u ∈ users, u.user_id = t) :
    (selectUserInfo (updateUsersWhere users t ud) t).isSome = true := by
  rw [selectUserInfo_isSome]
  rcases h with ⟨u, hu, hid⟩
  refine ⟨if u.user_id = t then applyUpdateDict u ud else u, ?_, ?_⟩
  · exact List.mem_map_of_mem _ hu
  · rw [updateRow_user_id]
    exact hid

theorem hasExtraKeys_eq_false_iff (ud : List (String × DBValue))
    (ed : List String) :
    hasExtraKeys ud ed = false ↔ ∀ kv ∈ ud, kv.1 ∈ ed := by
  unfold hasExtraKeys
  simp

theorem hasExtraKeys_eq_true_iff (ud : List (String × DBValue))
    (ed : List String) :
    hasExtraKeys ud ed = true ↔ ∃ kv ∈ ud, kv.1 ∉ ed := by
  unfold hasExtraKeys
  simp

/-! ## Claims -/

/-- C1: for every payload whose `target_userid` is 2 or 3, each of
`edit_user`, `toggle_user_lock` and `internal_toggle_user_lock` returns
`success = false` with `user_info = none` and leaves the whole store (in
particular the users table) unchanged. -/
theorem C1_reserved_rows_immutable (db : AuthDB) (pe : EditPayload)
    (pt : ToggleAuthPayload) (pint : TogglePayload)
    (he : pe.target_userid = 2 ∨ pe.target_userid = 3)
    (ht : pt.target_userid = 2 ∨ pt.target_userid = 3)
    (hi : pint.target_userid = 2 ∨ pint.target_userid = 3) :
    ((edit_user db pe).1.success = false ∧
      (edit_user db pe).1.user_info = none ∧ (edit_user db pe).2 = db) ∧
    ((toggle_user_lock db pt).1.success = false ∧
      (toggle_user_lock db pt).1.user_info = none ∧
      (toggle_user_lock db pt).2 = db) ∧
    ((internal_toggle_user_lock db pint).1.success = false ∧
      (internal_toggle_user_lock db pint).1.user_info = none ∧
      (internal_toggle_user_lock db pint).2 = db) := by
  refine ⟨?_, ?_, ?_⟩
  · rw [edit_user, if_pos he]
    exact ⟨rfl, rfl, rfl⟩
  · rw [toggle_user_lock]
    split
    · exact ⟨rfl, rfl, rfl⟩
    · exact ⟨rfl, rfl, rfl⟩
  · rw [internal_toggle_user_lock]
    split
    · exact ⟨rfl, rfl, rfl⟩
    · exact ⟨rfl, rfl, rfl⟩

/-- A store holding only the reserved anonymous row, for instantiating the
reserved-target theorems. -/
def dbReserved : AuthDB :=
  ⟨[⟨2, "anonymous", "anon@example.org", true, "anonymous", false⟩], [], []⟩

theorem C1_witness :
    (edit_user dbReserved ⟨1, "superuser", "tok", 2, []⟩).1.success = false ∧
    (toggle_user_lock dbReserved
      ⟨1, "superuser", "tok", 2, "lock"⟩).1.success = false ∧
    (internal_toggle_user_lock dbReserved ⟨3, "lock"⟩).1.success = false := by
  have h := C1_reserved_rows_immutable dbReserved
    ⟨1, "superuser", "tok", 2, []⟩ ⟨1, "superuser", "tok", 2, "lock"⟩
    ⟨3, "lock"⟩ (Or.inl rfl) (Or.inl rfl) (Or.inr rfl)
  exact ⟨h.1.1, h.2.1.1, h.2.2.1⟩

/-- C2: the authorization decision is total and default-deny.  If the actor
role is not `superuser` and the self-edit relationship (target equals actor
with role `authenticated` or `staff`) does not hold — including any
unrecognized role string — then `edit_user` fails and writes nothing; and
`toggle_user_lock` fails and writes nothing for every role other than
`superuser`. -/
theorem C2_default_deny (db : AuthDB) (pe : EditPayload)
    (pt : ToggleAuthPayload)
    (he1 : pe.user_role ≠ "superuser")
    (he2 : ¬ (pe.target_userid = pe.user_id ∧
      (pe.user_role = "authenticated" ∨ pe.user_role = "staff")))
    (ht : pt.user_role ≠ "superuser") :
    ((edit_user db pe).1.success = false ∧
      (edit_user db pe).1.user_info = none ∧ (edit_user db pe).2 = db) ∧
    ((toggle_user_lock db pt).1.success = false ∧
      (toggle_user_lock db pt).1.user_info = none ∧
      (toggle_user_lock db pt).2 = db) := by
  constructor
  · rw [edit_user]
    split
    · exact ⟨rfl, rfl, rfl⟩
    · exact ⟨rfl, rfl, rfl⟩
  · rw [toggle_user_lock]
    split
    · exact ⟨rfl, rfl, rfl⟩
    · split
      · exact ⟨rfl, rfl, rfl⟩
      · exact ⟨rfl, rfl, rfl⟩

theorem C2_witness :
    (edit_user dbReserved ⟨7, "unknown_role", "tok", 8, []⟩).1.success =
      false ∧
    (toggle_user_lock dbReserved
      ⟨7, "staff", "tok", 8, "lock"⟩).1.success = false := by
  have h := C2_default_deny dbReserved ⟨7, "unknown_role", "tok", 8, []⟩
    ⟨7, "staff", "tok", 8, "lock"⟩ (by decide)
    (by rintro ⟨-, h | h⟩ <;> exact absurd h (by decide)) (by decide)
  exact ⟨h.1.1, h.2.1⟩

theorem roleChangeInvalid_eq_false_iff (ud : List (String × DBValue)) :
    roleChangeInvalid ud = false ↔
      ∀ v, lookupKey ud "user_role" = some v →
        v = DBValue.str "superuser" ∨ v = DBValue.str "staff" ∨
        v = DBValue.str "authenticated" ∨ v = DBValue.str "locked" := by
  unfold roleChangeInvalid
  cases h : lookupKey ud "user_role" with
  | none => simp [h]
  | some v =>
      cases v with
      | str s =>
          simp [h, validRoles]
          tauto
      | bool b => simp [h]

/-- C3: `edit_user` and `toggle_user_lock` fail and mutate nothing unless the
session resolved from the payload's `session_token` is active and bound to
exactly the payload's `user_id` and `user_role`; role and identity claims of
the payload are never trusted standalone. -/
theorem C3_session_required (db : AuthDB) (pe : EditPayload)
    (pt : ToggleAuthPayload)
    (he : ¬ ∃ s, auth_session_exists db pe.session_token = some s ∧
      s.is_active = true ∧ s.user_id = pe.user_id ∧
      s.user_role = pe.user_role)
    (ht : ¬ ∃ s, auth_session_exists db pt.session_token = some s ∧
      s.is_active = true ∧ s.user_id = pt.user_id ∧
      s.user_role = pt.user_role) :
    ((edit_user db pe).1.success = false ∧
      (edit_user db pe).1.user_info = none ∧ (edit_user db pe).2 = db) ∧
    ((toggle_user_lock db pt).1.success = false ∧
      (toggle_user_lock db pt).1.user_info = none ∧
      (toggle_user_lock db pt).2 = db) := by
  have hme : sessionMatches db pe.session_token pe.user_id pe.user_role
      = false := by
    cases hb : sessionMatches db pe.session_token pe.user_id pe.user_role with
    | false => rfl
    | true => exact absurd ((sessionMatches_iff _ _ _ _).mp hb) he
  have hmt : sessionMatches db pt.session_token pt.user_id pt.user_role
      = false := by
    cases hb : sessionMatches db pt.session_token pt.user_id pt.user_role with
    | false => rfl
    | true => exact absurd ((sessionMatches_iff _ _ _ _).mp hb) ht
  constructor
  · rw [edit_user]
    split_ifs with h1 h2 h3 h4 h5 <;> simp_all
  · rw [toggle_user_lock]
    split_ifs with h1 h2 h3 h4 <;> simp_all

/-- A store with one ordinary user and no sessions at all, so that no session
token can validate. -/
def dbNoSessions : AuthDB :=
  ⟨[⟨5, "user five", "five@example.org", true, "staff", true⟩], [], []⟩

theorem C3_witness :
    (edit_user dbNoSessions
      ⟨5, "staff", "tok", 5, [("full_name", .str "X")]⟩).1.success = false ∧
    (toggle_user_lock dbNoSessions
      ⟨5, "superuser", "tok", 6, "lock"⟩).1.success = false := by
  have hno : ∀ tok : String, auth_session_exists dbNoSessions tok = none := by
    intro tok
    rfl
  have h := C3_session_required dbNoSessions
    ⟨5, "staff", "tok", 5, [("full_name", .str "X")]⟩
    ⟨5, "superuser", "tok", 6, "lock"⟩
    (by rintro ⟨s, hs, -⟩; rw [hno] at hs; exact Option.noConfusion hs)
    (by rintro ⟨s, hs, -⟩; rw [hno] at hs; exact Option.noConfusion hs)
  exact ⟨h.1.1, h.2.1⟩

/-- A store whose one user is a session-verified superuser, used to refute
the claim that self-edits are restricted to `{full_name, email}` for every
role: a superuser self-edit of `is_active` succeeds. -/
def dbSuperSelf : AuthDB :=
  ⟨[⟨1, "root", "root@example.org", true, "superuser", true⟩],
   [⟨"stok", 1, "superuser", "1.2.3.4", "ua", true⟩], []⟩

/-- The superuser self-edit payload touching `is_active`, a key outside
`{full_name, email}`. -/
def pSuperSelf : EditPayload :=
  ⟨1, "superuser", "stok", 1, [("is_active", .bool false)]⟩

/-- C4 counterexample: a self-edit (`target_userid = user_id = 1`) whose
update dict holds the key `is_active`, outside `{full_name, email}`, yet
`edit_user` returns `success = true` and updates the row, because the actor
role is `superuser` and the superuser path, not the self-edit path, is
taken. -/
theorem C4_counterexample :
    (edit_user dbSuperSelf pSuperSelf).1.success = true ∧
    (edit_user dbSuperSelf pSuperSelf).2.users ≠ dbSuperSelf.users := by
  decide

/-- C4 (amended): for every actor role other than `superuser`, an
`edit_user` request with `target_userid = user_id` whose update dict holds
any key outside `{full_name, email}` fails and performs no update. -/
theorem C4_self_edit_field_policy (db : AuthDB) (p : EditPayload)
    (hrole : p.user_role ≠ "superuser")
    (hself : p.target_userid = p.user_id)
    (hkey : ∃ kv ∈ p.update_dict, kv.1 ≠ "full_name" ∧ kv.1 ≠ "email") :
    (edit_user db p).1.success = false ∧
    (edit_user db p).1.user_info = none ∧ (edit_user db p).2 = db := by
  have hex : hasExtraKeys p.update_dict selfEditable = true := by
    rw [hasExtraKeys_eq_true_iff]
    rcases hkey with ⟨kv, hmem, hk1, hk2⟩
    exact ⟨kv, hmem, by simp [selfEditable, hk1, hk2]⟩
  rw [edit_user]
  split_ifs with h1 h2 h3 <;> exact ⟨rfl, rfl, rfl⟩

theorem C4_witness :
    (edit_user dbNoSessions
      ⟨5, "staff", "tok", 5,
        [("full_name", .str "A"), ("user_role", .str "superuser")]⟩).1.success
      = false ∧
    (edit_user dbNoSessions
      ⟨5, "staff", "tok", 5,
        [("full_name", .str "A"), ("user_role", .str "superuser")]⟩).2
      = dbNoSessions := by
  have h := C4_self_edit_field_policy dbNoSessions
    ⟨5, "staff", "tok", 5,
      [("full_name", .str "A"), ("user_role", .str "superuser")]⟩
    (by decide) rfl
    ⟨("user_role", .str "superuser"), by decide, by decide, by decide⟩
  exact ⟨h.1, h.2.2⟩

/-- C5: for a session-verified superuser actor aiming at a non-reserved,
existing target row, `edit_user` succeeds iff the update dict's keys all lie
inside {full_name, email, is_active, user_role, email_verified} and, when
`user_role` is among the keys, its value is one of superuser, staff,
authenticated, locked; every rejected request leaves the store unchanged. -/
theorem C5_superuser_field_policy (db : AuthDB) (p : EditPayload)
    (hrole : p.user_role = "superuser")
    (hsess : sessionMatches db p.session_token p.user_id p.user_role = true)
    (ht2 : p.target_userid ≠ 2) (ht3 : p.target_userid ≠ 3)
    (hexist : ∃ u ∈ db.users, u.user_id = p.target_userid) :
    ((edit_user db p).1.success = true ↔
      ((∀ kv ∈ p.update_dict, kv.1 = "full_name" ∨ kv.1 = "email" ∨
          kv.1 = "is_active" ∨ kv.1 = "user_role" ∨
          kv.1 = "email_verified") ∧
        ∀ v, lookupKey p.update_dict "user_role" = some v →
          v = DBValue.str "superuser" ∨ v = DBValue.str "staff" ∨
          v = DBValue.str "authenticated" ∨ v = DBValue.str "locked")) ∧
    ((edit_user db p).1.success = false → (edit_user db p).2 = db) := by
  rw [edit_user]
  rw [if_neg (by rintro (h | h); exacts [ht2 h, ht3 h])]
  rw [if_neg (by
    rintro ⟨-, h | h⟩ <;> (rw [hrole] at h; exact absurd h (by decide)))]
  rw [if_pos hrole, if_pos hsess]
  cases hkeys : hasExtraKeys p.update_dict superuserEditable with
  | true =>
      rw [if_pos rfl]
      refine ⟨⟨(fun h => nomatch h), ?_⟩, fun _ => rfl⟩
      rintro ⟨hall, -⟩
      rw [hasExtraKeys_eq_true_iff] at hkeys
      rcases hkeys with ⟨kv, hmem, hout⟩
      refine absurd ?_ hout
      have hd := hall kv hmem
      simp only [superuserEditable, List.mem_cons, List.mem_singleton]
      tauto
  | false =>
      rw [if_neg (by decide)]
      cases hrc : roleChangeInvalid p.update_dict with
      | true =>
          rw [if_pos rfl]
          refine ⟨⟨(fun h => nomatch h), ?_⟩, fun _ => rfl⟩
          rintro ⟨-, hvals⟩
          have hf : roleChangeInvalid p.update_dict = false :=
            (roleChangeInvalid_eq_false_iff _).mpr hvals
          rw [hrc] at hf
          exact absurd hf (by decide)
      | false =>
          rw [if_neg (by decide)]
          rw [doEditUpdate]
          have hsome := selectUserInfo_updateUsersWhere_isSome db.users
            p.target_userid p.update_dict hexist
          cases hs : selectUserInfo
              (updateUsersWhere db.users p.target_userid p.update_dict)
              p.target_userid with
          | none =>
              rw [hs] at hsome
              exact absurd hsome (by decide)
          | some info =>
              refine ⟨⟨fun _ => ⟨?_, ?_⟩, fun _ => rfl⟩,
                (fun h => nomatch h)⟩
              · intro kv hm
                have hd := (hasExtraKeys_eq_false_iff _ _).mp hkeys kv hm
                simp only [superuserEditable, List.mem_cons,
                  List.mem_singleton] at hd
                tauto
              · exact (roleChangeInvalid_eq_false_iff _).mp hrc

/-- A store with a session-verified superuser (id 1) and an ordinary target
user (id 7), for instantiating the superuser edit-policy theorem. -/
def dbSuperAdmin : AuthDB :=
  ⟨[⟨1, "root", "root@example.org", true, "superuser", true⟩,
    ⟨7, "seven", "seven@example.org", true, "authenticated", true⟩],
   [⟨"rtok", 1, "superuser", "9.9.9.9", "ua", true⟩], []⟩

/-- The superuser edit payload used by the C5 witness: a role change of user
7 to `staff`, which the field policy accepts. -/
def pSuperEdit : EditPayload :=
  ⟨1, "superuser", "rtok", 7, [("user_role", .str "staff")]⟩

theorem C5_witness :
    (edit_user dbSuperAdmin pSuperEdit).1.success = true := by
  refine ((C5_superuser_field_policy dbSuperAdmin pSuperEdit rfl (by decide)
    (by decide) (by decide)
    ⟨⟨7, "seven", "seven@example.org", true, "authenticated", true⟩,
      by decide, rfl⟩).1.mpr ⟨by decide, ?_⟩)
  intro v hv
  rw [show lookupKey pSuperEdit.update_dict "user_role"
    = some (DBValue.str "staff") from rfl] at hv
  rcases Option.some.inj hv with rfl
  right
  left
  rfl

/-- C6: `verify_apikey` succeeds iff a stored apikeys record exists matching
the claims' `tkn`, `uid` and `rol` with `expires` strictly after `now` and
`issued` and `not_valid_before` strictly before `now` — all conjunctive —
and every failing verification returns the one generic message. -/
theorem C6_verify_conjunctive (db : AuthDB) (now : Int) (c : ApiKeyClaims) :
    ((verify_apikey db now c).success = true ↔
      ∃ k ∈ db.apikeys, k.apikey = c.tkn ∧ k.user_id = c.uid ∧
        k.user_role = c.rol ∧ k.expires > now ∧ k.issued < now ∧
        k.not_valid_before < now) ∧
    ((verify_apikey db now c).success = false →
      (verify_apikey db now c).messages =
        ["API key could not be verified."]) := by
  rw [verify_apikey]
  cases h : db.apikeys.find? (apikeyRecordMatches now c) with
  | some k =>
      have hp := List.find?_some h
      have hk : k ∈ db.apikeys := List.mem_of_find?_eq_some h
      have hprops : k.apikey = c.tkn ∧ k.user_id = c.uid ∧
          k.user_role = c.rol ∧ k.expires > now ∧ k.issued < now ∧
          k.not_valid_before < now := by
        simpa [apikeyRecordMatches, and_assoc] using hp
      exact ⟨⟨fun _ => ⟨k, hk, hprops⟩, fun _ => rfl⟩,
        fun hf => Bool.noConfusion hf⟩
  | none =>
      refine ⟨⟨fun hf => Bool.noConfusion hf, ?_⟩, fun _ => rfl⟩
      rintro ⟨k, hk, h1, h2, h3, h4, h5, h6⟩
      have hno := List.find?_eq_none.mp h k hk
      refine absurd ?_ hno
      simp [apikeyRecordMatches, h1, h2, h3, h4, h5, h6]

/-- A one-key store for instantiating the verification theorems. -/
def dbOneKey : AuthDB :=
  ⟨[], [], [⟨"K", 10, 100, 20, 42, "staff", "sess"⟩]⟩

/-- A claim set matching the stored key of `dbOneKey`. -/
def cGood : ApiKeyClaims :=
  ⟨1, 42, "staff", "ua", "aud", "sub", "1.1.1.1", "K", 10, 20, 100⟩

theorem C6_witness :
    (verify_apikey dbOneKey 50 cGood).success = true ∧
    (verify_apikey dbOneKey 200 cGood).success = false ∧
    (verify_apikey dbOneKey 200 cGood).messages =
      ["API key could not be verified."] := by
  have hyes := (C6_verify_conjunctive dbOneKey 50 cGood).1.mpr
    ⟨⟨"K", 10, 100, 20, 42, "staff", "sess"⟩, by decide, rfl, rfl, rfl,
      by decide, by decide, by decide⟩
  have hno : (verify_apikey dbOneKey 200 cGood).success = false := by decide
  exact ⟨hyes, hno, (C6_verify_conjunctive dbOneKey 200 cGood).2 hno⟩

/-- C7: `issue_new_apikey` fails and persists nothing unless the session
resolved from the payload's token exists and its `user_id`, `ip_address`,
`user_agent` and `user_role` each equal the corresponding payload fields; on
success it appends exactly one record whose `apikey`, `issued`, `expires`,
`not_valid_before`, `user_id` and `user_role` equal the corresponding claims
(`tkn`, `iat`, `exp`, `nbf`, `uid`, `rol`) of the returned payload. -/
theorem C7_issue_session_binding (db : AuthDB) (now : Int) (tok : String)
    (p : IssuePayload) :
    (auth_session_exists db p.session_token = none →
      (issue_new_apikey db now tok p).1.success = false ∧
      (issue_new_apikey db now tok p).2 = db) ∧
    (∀ s, auth_session_exists db p.session_token = some s →
      ¬ (s.user_id = p.user_id ∧ s.ip_address = p.ip_address ∧
        s.user_agent = p.user_agent ∧ s.user_role = p.user_role) →
      (issue_new_apikey db now tok p).1.success = false ∧
      (issue_new_apikey db now tok p).2 = db) ∧
    ((issue_new_apikey db now tok p).1.success = true →
      ∃ c, (issue_new_apikey db now tok p).1.apikey = some c ∧
        (issue_new_apikey db now tok p).2.apikeys = db.apikeys ++
          [⟨c.tkn, c.iat, c.exp, c.nbf, c.uid, c.rol, p.session_token⟩]) := by
  rw [issue_new_apikey]
  cases hs : auth_session_exists db p.session_token with
  | none =>
      refine ⟨fun _ => ⟨rfl, rfl⟩, ?_, ?_⟩
      · intro s hsome hmm
        exact Option.noConfusion hsome
      · intro hsucc
        exact Bool.noConfusion hsucc
  | some s =>
      dsimp only
      refine ⟨fun hnone => Option.noConfusion hnone, ?_, ?_⟩
      · intro s' hs' hmm
        rcases Option.some.inj hs' with rfl
        rw [if_neg hmm]
        exact ⟨rfl, rfl⟩
      · intro hsucc
        by_cases hc : s.user_id = p.user_id ∧ s.ip_address = p.ip_address ∧
            s.user_agent = p.user_agent ∧ s.user_role = p.user_role
        · rw [if_pos hc] at hsucc ⊢
          exact ⟨_, rfl, rfl⟩
        · rw [if_neg hc] at hsucc
          exact Bool.noConfusion hsucc

/-- A store with one live session bound to user 42, used to instantiate the
issuance theorems. -/
def dbIssue : AuthDB :=
  ⟨[], [⟨"sess", 42, "staff", "1.1.1.1", "ua", true⟩], []⟩

/-- A well-formed issuance payload matching the session of `dbIssue`. -/
def pIssue : IssuePayload :=
  ⟨42, "staff", 1, 0, "aud", "sub", "1.1.1.1", "ua", "sess", 1⟩

theorem C7_witness :
    (issue_new_apikey dbIssue 0 "K" ⟨41, "staff", 1, 0, "aud", "sub",
      "1.1.1.1", "ua", "sess", 1⟩).1.success = false ∧
    ∃ c, (issue_new_apikey dbIssue 0 "K" pIssue).1.apikey = some c ∧
      (issue_new_apikey dbIssue 0 "K" pIssue).2.apikeys = dbIssue.apikeys ++
        [⟨c.tkn, c.iat, c.exp, c.nbf, c.uid, c.rol, "sess"⟩] := by
  constructor
  · exact ((C7_issue_session_binding dbIssue 0 "K" ⟨41, "staff", 1, 0, "aud",
      "sub", "1.1.1.1", "ua", "sess", 1⟩).2.1
      ⟨"sess", 42, "staff", "1.1.1.1", "ua", true⟩ rfl
      (by rintro ⟨h, -⟩; exact absurd h (by decide))).1
  · exact (C7_issue_session_binding dbIssue 0 "K" pIssue).2.2 (by decide)

/-- C9: issuance performs no validation of the time window: whenever the
session fingerprint check passes, the key is issued and persisted for every
value of `expires_days` and `not_valid_before`, including degenerate
combinations with `not_valid_before ≥ expires`. -/
theorem C9_issue_no_window_validation (db : AuthDB) (now : Int)
    (tok : String) (p : IssuePayload)
    (hs : ∃ s, auth_session_exists db p.session_token = some s ∧
      s.user_id = p.user_id ∧ s.ip_address = p.ip_address ∧
      s.user_agent = p.user_agent ∧ s.user_role = p.user_role) :
    (issue_new_apikey db now tok p).1.success = true ∧
    (issue_new_apikey db now tok p).2.apikeys = db.apikeys ++
      [⟨tok, now, now + p.expires_days * secondsPerDay,
        now + p.not_valid_before, p.user_id, p.user_role,
        p.session_token⟩] := by
  rcases hs with ⟨s, hlook, h1, h2, h3, h4⟩
  rw [issue_new_apikey, hlook]
  dsimp only
  rw [if_pos ⟨h1, h2, h3, h4⟩]
  exact ⟨rfl, rfl⟩

/-- A degenerate issuance payload for the session of `dbIssue`: it expires
immediately (`expires_days = 0`) yet only becomes valid 100 seconds later,
so `not_valid_before ≥ expires` and the key can never verify. -/
def pDegenerate : IssuePayload :=
  ⟨42, "staff", 0, 100, "aud", "sub", "1.1.1.1", "ua", "sess", 1⟩

theorem C9_witness :
    (issue_new_apikey dbIssue 0 "K" pDegenerate).1.success = true ∧
    (issue_new_apikey dbIssue 0 "K" pDegenerate).2.apikeys =
      [⟨"K", 0, 0, 100, 42, "staff", "sess"⟩] := by
  have h := C9_issue_no_window_validation dbIssue 0 "K" pDegenerate
    ⟨⟨"sess", 42, "staff", "1.1.1.1", "ua", true⟩, rfl, rfl, rfl, rfl, rfl⟩
  exact ⟨h.1, h.2⟩

/-- C10: the verification result depends only on the claims' `tkn`, `uid`
and `rol` (besides the store and the clock): two claim sets agreeing on
those three fields but differing arbitrarily in `ipa`, `clt`, `aud`, `sub`,
`ver`, `iat`, `nbf` or `exp` verify identically — the IP address and client
fingerprint bound at issuance are not re-checked. -/
theorem C10_verify_ignores_fingerprint (db : AuthDB) (now : Int)
    (c1 c2 : ApiKeyClaims) (h1 : c1.tkn = c2.tkn) (h2 : c1.uid = c2.uid)
    (h3 : c1.rol = c2.rol) :
    verify_apikey db now c1 = verify_apikey db now c2 := by
  have hp : apikeyRecordMatches now c1 = apikeyRecordMatches now c2 := by
    funext k
    simp only [apikeyRecordMatches, h1, h2, h3]
  simp only [verify_apikey, hp]

/-- A claim set agreeing with `cGood` on `tkn`/`uid`/`rol` but differing in
every other field. -/
def cOtherFingerprint : ApiKeyClaims :=
  ⟨9, 42, "staff", "other-ua", "other-aud", "other-sub", "8.8.8.8", "K",
    11, 21, 101⟩

theorem C10_witness :
    verify_apikey dbOneKey 50 cGood =
      verify_apikey dbOneKey 50 cOtherFingerprint :=
  C10_verify_ignores_fingerprint dbOneKey 50 cGood cOtherFingerprint
    rfl rfl rfl

theorem toggleNewDB_users (db : AuthDB) (p : TogglePayload) :
    (toggleNewDB db p).users =
      updateUsersWhere db.users p.target_userid
        (toggleUpdateDict p.action) := by
  unfold toggleNewDB auth_delete_sessions_userid
  split <;> rfl

theorem internal_toggle_users (db : AuthDB) (t : Int) (a : String)
    (ha : a = "unlock" ∨ a = "lock") (h2 : t ≠ 2) (h3 : t ≠ 3) :
    ((internal_toggle_user_lock db ⟨t, a⟩).2).users =
      updateUsersWhere db.users t (toggleUpdateDict a) := by
  rw [internal_toggle_user_lock]
  rw [if_neg (not_not_intro ha)]
  rw [if_neg (by rintro (h | h); exacts [h2 h, h3 h])]
  cases hs : selectUserInfo
      (updateUsersWhere db.users t (toggleUpdateDict a)) t with
  | some info => exact toggleNewDB_users db ⟨t, a⟩
  | none => exact toggleNewDB_users db ⟨t, a⟩

theorem mem_updateUsersWhere (users : List UserRecord) (t : Int)
    (ud : List (String × DBValue)) (u : UserRecord)
    (hu : u ∈ updateUsersWhere users t ud) (hid : u.user_id = t) :
    ∃ w ∈ users, w.user_id = t ∧ u = applyUpdateDict w ud := by
  rcases List.mem_map.mp hu with ⟨w, hw, heq⟩
  by_cases h : w.user_id = t
  · rw [if_pos h] at heq
    exact ⟨w, hw, h, heq.symm⟩
  · rw [if_neg h] at heq
    exact absurd hid (heq ▸ h)

/-- C8 counterexample: the claim quantifies over every target, but for the
reserved target 2 the `lock` action refuses to run: the anonymous row keeps
`is_active = true` and a role other than `locked`. -/
theorem C8_counterexample :
    ¬ ∀ u ∈ ((internal_toggle_user_lock dbReserved ⟨2, "lock"⟩).2).users,
      u.user_id = 2 → u.is_active = false ∧ u.user_role = "locked" := by
  decide

/-- C8 (amended): for every non-reserved target (`target_userid ∉ {2, 3}`),
`lock` sets `is_active = false` and `user_role = "locked"`, and a subsequent
`unlock` sets `is_active = true` and `user_role = "authenticated"`
unconditionally — so for any role held before locking, lock followed by
unlock leaves the user with role `authenticated`: the round-trip is lossy
for any elevated role. -/
theorem C8_lock_unlock_lossy (db : AuthDB) (t : Int)
    (h2 : t ≠ 2) (h3 : t ≠ 3) :
    (∀ u ∈ ((internal_toggle_user_lock db ⟨t, "lock"⟩).2).users,
      u.user_id = t → u.is_active = false ∧ u.user_role = "locked") ∧
    (∀ u ∈ ((internal_toggle_user_lock
        (internal_toggle_user_lock db ⟨t, "lock"⟩).2
        ⟨t, "unlock"⟩).2).users,
      u.user_id = t → u.is_active = true ∧
        u.user_role = "authenticated") := by
  constructor
  · intro u hu hid
    rw [internal_toggle_users db t "lock" (Or.inr rfl) h2 h3] at hu
    rcases mem_updateUsersWhere _ _ _ _ hu hid with ⟨w, -, -, rfl⟩
    exact ⟨rfl, rfl⟩
  · intro u hu hid
    rw [internal_toggle_users _ t "unlock" (Or.inl rfl) h2 h3] at hu
    rcases mem_updateUsersWhere _ _ _ _ hu hid with ⟨w, -, -, rfl⟩
    exact ⟨rfl, rfl⟩

/-- A store whose single ordinary user holds the elevated role `staff`
before being locked. -/
def dbStaffUser : AuthDB :=
  ⟨[⟨9, "nine", "nine@example.org", true, "staff", true⟩], [], []⟩

/-- The row of `dbStaffUser` after a lock/unlock round-trip: the elevated
`staff` role has been lost. -/
def uStaffRoundTrip : UserRecord :=
  ⟨9, "nine", "nine@example.org", true, "authenticated", true⟩

theorem C8_witness :
    uStaffRoundTrip.is_active = true ∧
    uStaffRoundTrip.user_role = "authenticated" :=
  (C8_lock_unlock_lossy dbStaffUser 9 (by decide) (by decide)).2
    uStaffRoundTrip (by decide) (by decide)
